import Mathlib

/-!
Shallow embedding of the command-line wrapper framework in
`rnastructure/util/wrapper.py`.

Python values that flow through the option machinery are modelled by
`Value` (strings, booleans and the `None` sentinel).  The `Wrapper`
class is modelled by a structure carrying its configuration fields;
the abstract, subclass-supplied hooks (`input_file`, `results`,
`stdin`, `_program_failed_`, `validate_input`) and the outside world
(tempdir creation, process spawning, the readiness wait) are modelled
by an `Env` of oracles consumed by the embedded `__call__`.
-/

/-- Python values appearing in option dictionaries and argument lists:
strings, booleans, and the `None` sentinel. -/
inductive Value where
  | str (s : String)
  | bool (b : Bool)
  | none
deriving DecidableEq, Repr

/-- Python `str(v)` (as used by `'%s' % v` formatting). -/
def pyStr : Value → String
  | .str s => s
  | .bool true => "True"
  | .bool false => "False"
  | .none => "None"

/-- Python truthiness of a `Value` (`bool(v)`): a string is truthy iff
nonempty, a boolean is itself, `None` is falsey. -/
def pyTruthy : Value → Bool
  | .str s => s != ""
  | .bool b => b
  | .none => false

/-- `is_number` from wrapper.py: returns `False` for every argument. -/
def is_number (arg : Value) : Bool :=
  false

/-- `is_true` from wrapper.py: `arg is True`. -/
def is_true (arg : Value) : Bool :=
  arg == .bool true

/-- `is_in(*known)` from wrapper.py: membership in the given values. -/
def is_in (known : List Value) : Value → Bool :=
  fun arg => known.contains arg

/-- The exception taxonomy of wrapper.py, plus a `raised` case for an
exception propagating out of a subclass hook or OS call (modelled by
the stage at which it was raised). -/
inductive Stage where
  | inputWrite
  | argGen
  | stdinGen
  | spawn
  | stdinWrite
deriving DecidableEq, Repr

inductive PyError where
  | valueError (msg : String)
  | invalidInput (msg : String)
  | unknownOption (msg : String)
  | invalidOption (msg : String)
  | programTimeout (msg : String)
  | programFailed (msg : String)
  | raised (s : Stage)
deriving DecidableEq, Repr

/-- Configuration of a `Wrapper` instance: the class attributes
`program` and `options` (the option schema, a mapping from option name
to validator) together with the constructor fields `_filename`,
`_base` (directory) and `_time`. -/
structure Wrapper where
  program : Option String
  options : List (String × (Value → Bool))
  filename : Option String
  base : Option String
  time : Nat

/-- `self.known_options = set(self.options.keys())`. -/
def Wrapper.known_options (w : Wrapper) : List String :=
  w.options.map Prod.fst

/-- Python dict lookup `options[key]` / `key in options`, on the list
model of the options mapping. -/
def pyLookup (options : List (String × Value)) (key : String) : Option Value :=
  (options.find? (fun p => p.1 == key)).map Prod.snd

/-- The second loop of `validate_options`: walk the schema items and
fail with `InvalidOptionError` at the first schema key present in the
supplied options whose validator rejects the value. -/
def checkOptionValues : List (String × (Value → Bool)) → List (String × Value) →
    Except PyError Bool
  | [], _ => .ok true
  | (key, pattern) :: rest, options =>
    match pyLookup options key with
    | some value =>
      if pattern value then checkOptionValues rest options
      else .error (.invalidOption ("Key " ++ key ++ " has invalid value " ++ pyStr value))
    | Option.none => checkOptionValues rest options

/-- The first loop of `validate_options`: the supplied keys not in
`known_options`, in iteration order. -/
def extraKeys (w : Wrapper) (options : List (String × Value)) : List String :=
  (options.map Prod.fst).filter (fun k => !(w.known_options.contains k))

/-- `Wrapper.validate_options`: collect every supplied key missing
from the schema and raise `UnknownOptionError` listing them; otherwise
check the value validators; return `True` when all pass. -/
def Wrapper.validate_options (w : Wrapper) (options : List (String × Value)) :
    Except PyError Bool :=
  let extra_keys := extraKeys w options
  if extra_keys ≠ [] then
    .error (.unknownOption ("Options: " ++ String.intercalate ", " extra_keys ++ " are unknown."))
  else
    checkOptionValues w.options options

/-- `Wrapper.validate`: raw-input check (the overridable
`validate_input`, whose outcome is supplied as `validInput`; the base
class always returns `True`), then option validation. -/
def Wrapper.validate (w : Wrapper) (validInput : Bool) (options : List (String × Value)) :
    Except PyError Bool :=
  if !validInput then .error (.invalidInput "Input did not validate")
  else
    match w.validate_options options with
    | .error e => .error e
    | .ok b =>
      if !b then .error (.invalidOption "Options did not validate")
      else .ok true

/-- The value placed in an argument list for `self._filename`
(`None` when unset). -/
def filenameVal : Option String → Value
  | some s => .str s
  | Option.none => .none

/-- `Wrapper.generate_options`: for each `(key, value)` pair append
the flag token `('-%s' if len(key) == 1 else '--%s') % value`, then
append the value itself unless `is_true(value)`. -/
def generate_options (filename : Option String) : List (String × Value) → List Value
  | [] => []
  | (key, value) :: rest =>
    Value.str ((if key.length = 1 then "-" else "--") ++ pyStr value)
      :: (if is_true value then [] else [value]) ++ generate_options filename rest

/-- `Wrapper.generate_arguments`: the default positional arguments,
`[filename]`. -/
def generate_arguments (filename : Option String) (options : List Value) : List Value :=
  [filenameVal filename]

/-- `Wrapper.generate_program_arguments`: options first, then the
positional arguments (note the source rebinds `options` to the
generated option tokens before calling `generate_arguments`). -/
def generate_program_arguments (filename : Option String)
    (options : List (String × Value)) : List Value :=
  let optionTokens := generate_options filename options
  let inputs := generate_arguments filename optionTokens
  (if optionTokens = [] then [] else optionTokens) ++ (if inputs = [] then [] else inputs)

/-- Sanity examples for the embedded option builder. -/
example : generate_options (some "f") [("x", .str "5")] = [.str "-5", .str "5"] := by
  decide

example : generate_options (some "f") [("long", .bool true)] = [.str "--True"] := by
  decide

/-- Observable filesystem/process side effects of `Wrapper.__call__`,
in the order they are performed. -/
inductive Effect where
  | mkdtemp (dir : String)
  | chdir (dir : String)
  | openWrite (name : String)
  | spawn (args : List Value)
  | writeStdin (content : String)
  | kill
deriving DecidableEq, Repr

/-- Oracles for everything `__call__` consults that is outside the
base class: the ambient cwd, the tempdir the OS would create, whether
each overridable hook or OS call raises, the readiness-wait outcome,
the exit status, and the `_program_failed_` hook's return value. -/
structure Env where
  cwd0 : String
  tmpdir : String
  inputWriteRaises : Bool
  argGenRaises : Bool
  stdinResult : Except Unit (Option String)
  spawnRaises : Bool
  stdinWriteRaises : Bool
  nothingReady : Bool
  returncode : Int
  failedResult : Value

/-- The success value: `self.results(process, temp_dir, self._filename)`,
modelled by the data handed to the abstract result builder. -/
inductive CallOutcome where
  | results (temp_dir : String) (filename : Option String)
deriving DecidableEq, Repr

instance {ε α : Type} [DecidableEq ε] [DecidableEq α] : DecidableEq (Except ε α) := fun x y =>
  match x, y with
  | .error a, .error b =>
    if h : a = b then .isTrue (by rw [h])
    else .isFalse (fun hh => h (by cases hh; rfl))
  | .ok a, .ok b =>
    if h : a = b then .isTrue (by rw [h])
    else .isFalse (fun hh => h (by cases hh; rfl))
  | .error _, .ok _ => .isFalse (fun hh => Except.noConfusion hh)
  | .ok _, .error _ => .isFalse (fun hh => Except.noConfusion hh)

/-- Result of one invocation: the returned value or raised exception,
the final ambient current directory, and the effect trace. -/
structure CallResult where
  outcome : Except PyError CallOutcome
  cwd : String
  effects : List Effect
deriving DecidableEq, Repr

/-- Python falsey test on `self._base` (`None` or empty string). -/
def strOptFalsey : Option String → Bool
  | Option.none => true
  | some s => s == ""

/-- The default `_program_failed_` hook returns `False`. -/
def programFailedDefault : Value := .bool false

/-- `Wrapper.__call__`, step by step from the source.  Every exit path
records the final ambient current directory; note that the source
switches back with a bare `os.chdir(cur_dir)` placed after the
readiness wait, with no `try/finally`. -/
def call (w : Wrapper) (validInput : Bool) (options : List (String × Value)) (env : Env) :
    CallResult :=
  match w.program with
  | Option.none => ⟨.error (.valueError "Must define a program to run."), env.cwd0, []⟩
  | some prog =>
    match w.validate validInput options with
    | .error e => ⟨.error e, env.cwd0, []⟩
    | .ok v =>
      if !v then ⟨.error (.valueError "Could not validate options and input"), env.cwd0, []⟩
      else
        let temp_dir := if strOptFalsey w.base then env.tmpdir else w.base.getD ""
        let effs0 : List Effect := if strOptFalsey w.base then [.mkdtemp env.tmpdir] else []
        let effs1 := effs0 ++ [Effect.chdir temp_dir]
        let effs2 := effs1 ++ (match w.filename with
          | some fn => [Effect.openWrite fn]
          | Option.none => [])
        if w.filename.isSome && env.inputWriteRaises then
          ⟨.error (.raised .inputWrite), temp_dir, effs2⟩
        else if env.argGenRaises then
          ⟨.error (.raised .argGen), temp_dir, effs2⟩
        else
          let gargs := generate_program_arguments w.filename options
          let args := Value.str prog :: (if gargs = [] then [] else gargs)
          match env.stdinResult with
          | .error _ => ⟨.error (.raised .stdinGen), temp_dir, effs2⟩
          | .ok content =>
            if env.spawnRaises then ⟨.error (.raised .spawn), temp_dir, effs2⟩
            else
              let effs3 := effs2 ++ [Effect.spawn args]
              if content.isSome && env.stdinWriteRaises then
                ⟨.error (.raised .stdinWrite), temp_dir, effs3⟩
              else
                let effs4 := effs3 ++ (match content with
                  | some c => [Effect.writeStdin c]
                  | Option.none => [])
                let effs5 := effs4 ++ [Effect.chdir env.cwd0]
                if env.nothingReady then
                  ⟨.error (.programTimeout ("Program " ++ prog ++ " timed out")),
                    env.cwd0, effs5 ++ [Effect.kill]⟩
                else
                  let code := env.returncode
                  let error_message := env.failedResult
                  if code != 0 || pyTruthy error_message then
                    ⟨.error (.programFailed ("Program " ++ prog ++ " failed. Status: " ++
                        toString code ++ ". Message: " ++ pyStr error_message ++ ".")),
                      env.cwd0, effs5⟩
                  else
                    ⟨.ok (.results temp_dir w.filename), env.cwd0, effs5⟩

/-- Does `needle` start `hay`? -/
def leadsWith : List Char → List Char → Bool
  | [], _ => true
  | _ :: _, [] => false
  | a :: as, b :: bs => a == b && leadsWith as bs

/-- Does `needle` occur contiguously inside `hay`? -/
def occursIn (needle : List Char) : List Char → Bool
  | [] => leadsWith needle []
  | c :: t => leadsWith needle (c :: t) || occursIn needle t

/-- Does the string `needle` occur inside the string `hay`? -/
def strMentions (needle hay : String) : Bool :=
  occursIn needle.toList hay.toList

/-! ### Helper lemmas -/

theorem generate_options_append (filename : Option String)
    (xs ys : List (String × Value)) :
    generate_options filename (xs ++ ys) =
      generate_options filename xs ++ generate_options filename ys := by
  induction xs with
  | nil => rfl
  | cons p rest ih =>
    obtain ⟨key, value⟩ := p
    simp [generate_options, ih]

theorem leadsWith_self_append (l t : List Char) : leadsWith l (l ++ t) = true := by
  induction l with
  | nil => rfl
  | cons c cs ih => simp [leadsWith, ih]

theorem occursIn_self_append (needle post : List Char) :
    occursIn needle (needle ++ post) = true := by
  cases needle with
  | nil =>
    cases post with
    | nil => rfl
    | cons c t => simp [occursIn, leadsWith]
  | cons a as =>
    simp [occursIn, leadsWith, leadsWith_self_append]

theorem occursIn_append (pre needle post : List Char) :
    occursIn needle (pre ++ (needle ++ post)) = true := by
  induction pre with
  | nil =>
    simpa using occursIn_self_append needle post
  | cons c cs ih =>
    simp [occursIn, ih]

/-! ### C8 -/

/-- C8: the numeric-option validator `is_number` returns `False` for
every argument. -/
theorem is_number_always_false (arg : Value) : is_number arg = false := rfl

/-! ### C1 -/

/-- C1 (code evaluated at the failing input): with the one-character
option key `x` mapped to the string value `"5"`, `generate_options`
emits the flag token `-5` — interpolating the *value* into the flag
template — and never a `-x` token built from the key, contradicting
the docstring's stated `-opt`/`--opt` convention. -/
theorem generate_options_flag_built_from_value :
    generate_options (some "file.txt") [("x", Value.str "5")] =
      [Value.str "-5", Value.str "5"] ∧
    Value.str "-x" ∉ generate_options (some "file.txt") [("x", Value.str "5")] := by
  decide

/-! ### C7 -/

/-- C7: wherever a `(key, value)` pair sits in the options mapping,
the token stream contains, at that position, the flag token followed
by the value itself as a separate argument — unless the value is the
literal boolean `True`, in which case only the flag token is
emitted. -/
theorem generate_options_value_after_flag (filename : Option String)
    (pre post : List (String × Value)) (key : String) (value : Value) :
    generate_options filename (pre ++ (key, value) :: post) =
      generate_options filename pre ++
        (Value.str ((if key.length = 1 then "-" else "--") ++ pyStr value)
          :: (if is_true value then [] else [value]) ++ generate_options filename post) := by
  rw [generate_options_append]
  rfl

/-! ### Validation lemmas -/

theorem mem_extraKeys (w : Wrapper) (options : List (String × Value)) (k : String) :
    k ∈ extraKeys w options ↔ k ∈ options.map Prod.fst ∧ k ∉ w.known_options := by
  simp [extraKeys, List.mem_filter]

theorem validate_options_unknown_eq (w : Wrapper) (options : List (String × Value))
    (h : ∃ k ∈ options.map Prod.fst, k ∉ w.known_options) :
    w.validate_options options = .error (.unknownOption
      ("Options: " ++ String.intercalate ", " (extraKeys w options) ++ " are unknown.")) := by
  have hne : extraKeys w options ≠ [] := by
    obtain ⟨k, hk, hnk⟩ := h
    intro hnil
    have hmem : k ∈ extraKeys w options := (mem_extraKeys w options k).2 ⟨hk, hnk⟩
    rw [hnil] at hmem
    simp at hmem
  simp [Wrapper.validate_options, hne]

theorem checkOptionValues_ok (schema : List (String × (Value → Bool)))
    (options : List (String × Value))
    (h : ∀ key pattern, (key, pattern) ∈ schema →
      ∀ v, pyLookup options key = some v → pattern v = true) :
    checkOptionValues schema options = .ok true := by
  induction schema with
  | nil => rfl
  | cons p rest ih =>
    obtain ⟨key, pattern⟩ := p
    simp only [checkOptionValues]
    cases hl : pyLookup options key with
    | none =>
      exact ih (fun k pat hm v hv => h k pat (List.mem_cons_of_mem _ hm) v hv)
    | some v =>
      have hp : pattern v = true := h key pattern (List.mem_cons_self _ _) v hl
      simp only [hp, if_true]
      exact ih (fun k pat hm v' hv => h k pat (List.mem_cons_of_mem _ hm) v' hv)

/-! ### C6 -/

/-- C6: when the options mapping contains a key not declared in the
schema, `validate_options` fails with `UnknownOptionError`, and the
listed keys are exactly the supplied keys absent from the schema — all
of them, not only the first. -/
theorem validate_options_lists_every_unknown_key (w : Wrapper)
    (options : List (String × Value))
    (h : ∃ k ∈ options.map Prod.fst, k ∉ w.known_options) :
    w.validate_options options = .error (.unknownOption
      ("Options: " ++ String.intercalate ", " (extraKeys w options) ++ " are unknown.")) ∧
    ∀ k, k ∈ extraKeys w options ↔ (k ∈ options.map Prod.fst ∧ k ∉ w.known_options) := by
  exact ⟨validate_options_unknown_eq w options h, fun k => mem_extraKeys w options k⟩

/-- Schema fixture: one known option `f` validated by `is_true`. -/
def wFlag : Wrapper :=
  { program := some "foo", options := [("f", is_true)], filename := some "in.txt",
    base := Option.none, time := 120 }

theorem validate_options_lists_every_unknown_key_witness :
    wFlag.validate_options [("bad", Value.str "1"), ("worse", Value.str "2")] =
      .error (.unknownOption ("Options: " ++
        String.intercalate ", " (extraKeys wFlag [("bad", Value.str "1"), ("worse", Value.str "2")])
        ++ " are unknown.")) ∧
    ∀ k, k ∈ extraKeys wFlag [("bad", Value.str "1"), ("worse", Value.str "2")] ↔
      (k ∈ ([("bad", Value.str "1"), ("worse", Value.str "2")].map Prod.fst) ∧
        k ∉ wFlag.known_options) :=
  validate_options_lists_every_unknown_key wFlag
    [("bad", Value.str "1"), ("worse", Value.str "2")]
    ⟨"bad", by decide, by decide⟩

/-! ### C9 -/

/-- C9: the unknown-key check has priority over value validation —
when the mapping has both a key absent from the schema and a schema
key whose value its validator rejects, `validate_options` raises
`UnknownOptionError`, never `InvalidOptionError`. -/
theorem unknown_key_check_has_priority (w : Wrapper) (options : List (String × Value))
    (h1 : ∃ k ∈ options.map Prod.fst, k ∉ w.known_options)
    (h2 : ∃ key pattern value, (key, pattern) ∈ w.options ∧
      pyLookup options key = some value ∧ pattern value = false) :
    ∃ msg, w.validate_options options = .error (.unknownOption msg) :=
  ⟨_, validate_options_unknown_eq w options h1⟩

/-- Schema fixture: one known option `n` validated by the
always-rejecting `is_number`. -/
def wNum : Wrapper :=
  { program := some "foo", options := [("n", is_number)], filename := some "in.txt",
    base := Option.none, time := 120 }

theorem unknown_key_check_has_priority_witness :
    ∃ msg, wNum.validate_options [("n", Value.str "1"), ("zz", Value.str "2")] =
      .error (.unknownOption msg) :=
  unknown_key_check_has_priority wNum [("n", Value.str "1"), ("zz", Value.str "2")]
    ⟨"zz", by decide, by decide⟩
    ⟨"n", is_number, Value.str "1", List.mem_singleton.mpr rfl, rfl, rfl⟩

/-! ### C10 -/

/-- C10: no option is required — if every supplied key is in the
schema and every schema validator accepts the value supplied for its
key (keys absent from the supplied mapping are never checked), then
`validate_options` returns `True`.  In particular the empty mapping
validates. -/
theorem validate_options_subset_ok (w : Wrapper) (options : List (String × Value))
    (hsub : ∀ k ∈ options.map Prod.fst, k ∈ w.known_options)
    (hvals : ∀ key pattern, (key, pattern) ∈ w.options →
      ∀ v, pyLookup options key = some v → pattern v = true) :
    w.validate_options options = .ok true := by
  have hnil : extraKeys w options = [] := by
    rw [extraKeys, List.filter_eq_nil]
    intro a ha
    simp [hsub a ha]
  simp [Wrapper.validate_options, hnil, checkOptionValues_ok w.options options hvals]

theorem validate_options_subset_ok_witness :
    wFlag.validate_options [("f", Value.bool true)] = .ok true :=
  validate_options_subset_ok wFlag [("f", Value.bool true)]
    (by decide)
    (by
      intro key pattern hmem v hv
      obtain ⟨hk, hp⟩ : key = "f" ∧ pattern = is_true := by
        simpa [wFlag, Prod.ext_iff] using hmem
      subst hk
      subst hp
      have hveq : Value.bool true = v := by simpa [pyLookup] using hv
      rw [← hveq]
      rfl)

/-! ### C5 -/

/-- C5: when raw input or options fail validation, `__call__` raises
that validation error before any filesystem or process side effect:
the effect trace is empty (no directory created, no chdir, no input
file written, no process spawned) and the ambient current directory is
untouched. -/
theorem call_validation_failure_is_pure (w : Wrapper) (prog : String) (validInput : Bool)
    (options : List (String × Value)) (env : Env) (e : PyError)
    (hprog : w.program = some prog)
    (h : w.validate validInput options = .error e) :
    call w validInput options env = ⟨.error e, env.cwd0, []⟩ := by
  simp [call, hprog, h]

/-- Unknown-option invocation used by several witnesses. -/
def envRun : Env :=
  { cwd0 := "/home/u", tmpdir := "/tmp/w", inputWriteRaises := false,
    argGenRaises := false, stdinResult := .ok Option.none, spawnRaises := false,
    stdinWriteRaises := false, nothingReady := false, returncode := 1,
    failedResult := .bool false }

theorem call_validation_failure_is_pure_witness :
    call wFlag true [("bad", Value.str "1")] envRun =
      ⟨.error (.unknownOption "Options: bad are unknown."), envRun.cwd0, []⟩ :=
  call_validation_failure_is_pure wFlag "foo" true [("bad", Value.str "1")] envRun
    (.unknownOption "Options: bad are unknown.") rfl (by decide)

/-! ### C2 -/

/-- Fixture for the directory-restoration counterexample: the input
materializer raises after the chdir into the fresh temp directory. -/
def envRaise : Env :=
  { cwd0 := "/home/u", tmpdir := "/tmp/w", inputWriteRaises := true,
    argGenRaises := false, stdinResult := .ok Option.none, spawnRaises := false,
    stdinWriteRaises := false, nothingReady := false, returncode := 0,
    failedResult := .bool false }

/-- C2 counterexample: an invocation that reaches the directory switch
(the trace contains the chdir into the work directory) and then exits
via an exception in input-file writing leaves the ambient current
directory at the work directory — it is NOT restored to its pre-call
value on that exit path. -/
theorem call_cwd_not_restored_on_input_write_exception :
    Effect.chdir "/tmp/w" ∈ (call wFlag true [] envRaise).effects ∧
    (call wFlag true [] envRaise).outcome = .error (.raised .inputWrite) ∧
    (call wFlag true [] envRaise).cwd = "/tmp/w" ∧
    (call wFlag true [] envRaise).cwd ≠ envRaise.cwd0 := by
  decide

/-- C2 amended: on every exit path that reaches the readiness wait —
success, `ProgramFailed`, and `ProgramTimeout` — the ambient current
directory is restored to its pre-call value; exceptions raised by
input-file writing, argument building, stdin generation or writing, or
process spawning are not covered by any restoration. -/
theorem call_restores_cwd_on_paths_reaching_wait (w : Wrapper) (validInput : Bool)
    (options : List (String × Value)) (env : Env) (sc : Option String)
    (h1 : env.inputWriteRaises = false) (h2 : env.argGenRaises = false)
    (h3 : env.stdinResult = .ok sc) (h4 : env.spawnRaises = false)
    (h5 : env.stdinWriteRaises = false) :
    (call w validInput options env).cwd = env.cwd0 := by
  unfold call
  cases hp : w.program with
  | none => rfl
  | some prog =>
    cases hv : w.validate validInput options with
    | error e => rfl
    | ok v =>
      cases v with
      | false => rfl
      | true =>
        simp only [h1, h2, h3, h4, h5, Bool.and_false, Bool.false_eq_true, if_false]
        split
        · rfl
        · split
          · rfl
          · split <;> rfl

theorem call_restores_cwd_on_paths_reaching_wait_witness :
    (call wFlag true [] envRun).cwd = envRun.cwd0 :=
  call_restores_cwd_on_paths_reaching_wait wFlag true [] envRun Option.none
    rfl rfl rfl rfl rfl

/-! ### C4 -/

/-- Timeout fixture: the readiness wait reports nothing ready. -/
def envTimeout : Env :=
  { envRun with nothingReady := true }

/-- C4 counterexample: on the timeout path the raised error's message
is exactly `Program foo timed out`; the configured time budget (120)
appears nowhere in it, so the error does not name the elapsed time
budget. -/
theorem call_timeout_message_omits_budget :
    (call wFlag true [] envTimeout).outcome =
      .error (.programTimeout "Program foo timed out") ∧
    wFlag.time = 120 ∧
    strMentions (toString wFlag.time) "Program foo timed out" = false := by
  decide

/-- C4 amended: when the readiness wait reports nothing ready, the
process is killed and the call fails with a `ProgramTimeout` error
whose message names the program — but not the time budget: the message
is exactly `Program <name> timed out`. -/
theorem call_timeout_kills_and_names_program (w : Wrapper) (prog : String)
    (validInput : Bool) (options : List (String × Value)) (env : Env) (sc : Option String)
    (hprog : w.program = some prog)
    (hv : w.validate validInput options = .ok true)
    (h1 : env.inputWriteRaises = false) (h2 : env.argGenRaises = false)
    (h3 : env.stdinResult = .ok sc) (h4 : env.spawnRaises = false)
    (h5 : env.stdinWriteRaises = false) (h6 : env.nothingReady = true) :
    (call w validInput options env).outcome =
      .error (.programTimeout ("Program " ++ prog ++ " timed out")) ∧
    Effect.kill ∈ (call w validInput options env).effects ∧
    strMentions prog ("Program " ++ prog ++ " timed out") = true := by
  refine ⟨?_, ?_, ?_⟩
  · simp [call, hprog, hv, h1, h2, h3, h4, h5, h6]
  · simp [call, hprog, hv, h1, h2, h3, h4, h5, h6]
  · show occursIn prog.toList ("Program " ++ prog ++ " timed out").toList = true
    have hdata : ("Program " ++ prog ++ " timed out").toList
        = ("Program ".toList ++ prog.toList) ++ " timed out".toList := rfl
    rw [hdata, List.append_assoc]
    exact occursIn_append _ _ _

theorem call_timeout_kills_and_names_program_witness :
    (call wFlag true [] envTimeout).outcome =
      .error (.programTimeout ("Program " ++ "foo" ++ " timed out")) ∧
    Effect.kill ∈ (call wFlag true [] envTimeout).effects ∧
    strMentions "foo" ("Program " ++ "foo" ++ " timed out") = true :=
  call_timeout_kills_and_names_program wFlag "foo" true [] envTimeout Option.none
    rfl (by decide) rfl rfl rfl rfl rfl rfl

/-! ### C3 -/

/-- C3: a completed (non-timed-out) invocation fails with
`ProgramFailed` exactly when the exit status is non-zero or the
per-tool failure predicate's result is truthy (the default predicate
returns `False`, never reporting failure); the error message carries
the program name, the exact exit status and the predicate message, and
otherwise the result builder's value is returned. -/
theorem call_completed_failed_iff (w : Wrapper) (prog : String)
    (validInput : Bool) (options : List (String × Value)) (env : Env) (sc : Option String)
    (hprog : w.program = some prog)
    (hv : w.validate validInput options = .ok true)
    (h1 : env.inputWriteRaises = false) (h2 : env.argGenRaises = false)
    (h3 : env.stdinResult = .ok sc) (h4 : env.spawnRaises = false)
    (h5 : env.stdinWriteRaises = false) (h6 : env.nothingReady = false) :
    pyTruthy programFailedDefault = false ∧
    (call w validInput options env).outcome =
      (if env.returncode != 0 || pyTruthy env.failedResult then
        Except.error (.programFailed ("Program " ++ prog ++ " failed. Status: " ++
          toString env.returncode ++ ". Message: " ++ pyStr env.failedResult ++ "."))
      else
        Except.ok (.results (if strOptFalsey w.base then env.tmpdir else w.base.getD "")
          w.filename)) := by
  constructor
  · rfl
  · simp only [call, hprog, hv, h1, h2, h3, h4, h5, h6, Bool.and_false, Bool.false_eq_true,
      if_false, Bool.not_true]
    split <;> simp [apply_ite]

theorem call_completed_failed_iff_witness :
    (call wFlag true [] envRun).outcome =
      .error (.programFailed "Program foo failed. Status: 1. Message: False.") := by
  have h := call_completed_failed_iff wFlag "foo" true [] envRun Option.none
    rfl (by decide) rfl rfl rfl rfl rfl rfl
  rw [h.2]
  decide
